import Mathlib

/-!
Verification of the credits ledger and payment-reconciliation core of the
gostudy backend (src/backend/server.js), shallowly embedded in Lean 4.

The embedding models Firestore as an explicit state: an association list of
user accounts, an append-only credits ledger, and the processed-webhook
collection. Firestore server timestamps (createdAt, processedAt,
subscriptionCancelledAt) carry no information the properties depend on and
are omitted. Each backend operation becomes a pure function from state to
result and new state; a Firestore transaction that throws is modelled by
returning the unchanged state together with the error result, exactly as the
try/catch in the source converts the throw into a { success: false } value.
-/

namespace GoStudy

/-- A user document in the users collection (server.js getCreditsBalance /
addCredits). `plan` and `credits_balance` mirror the stored fields;
`manualProCreditsGranted` is the flag set by the manual-pro correction path. -/
structure Account where
  plan : String
  credits_balance : Int
  paypalSubscriptionId : Option String
  manualProCreditsGranted : Bool
deriving Repr, DecidableEq

/-- A document of the credits_ledger collection. `balanceAfter` is optional
because the initialization grant written by getCreditsBalance omits it. -/
structure LedgerEntry where
  userId : String
  amount : Int
  type : String
  description : String
  idempotencyKey : Option String
  paypalEventId : Option String
  balanceAfter : Option Int
deriving Repr, DecidableEq

/-- The whole Firestore state seen by the credits core: the users collection
(keyed association list), the append-only credits_ledger in creation order,
and processed_webhooks as (eventId, eventType) pairs. -/
structure DB where
  users : List (String × Account)
  ledger : List LedgerEntry
  processedWebhooks : List (String × String)
deriving Repr, DecidableEq

/-- Lookup in the users association list by key. -/
def lookupA (l : List (String × Account)) (u : String) : Option Account :=
  (l.find? (fun p => p.1 == u)).map Prod.snd

/-- db.collection(users).doc(u).get() -/
def lookupUser (s : DB) (u : String) : Option Account :=
  lookupA s.users u

/-- Writing the document for key u (set or update both leave one doc per key). -/
def setUser (l : List (String × Account)) (u : String) (a : Account) :
    List (String × Account) :=
  (u, a) :: l.filter (fun p => !(p.1 == u))

/-- The ledger query where(idempotencyKey, ==, k).limit(1): does any entry
carry idempotency key k? -/
def keyExists (l : List LedgerEntry) (k : String) : Bool :=
  l.any (fun e => e.idempotencyKey == some k)

/-- PLAN_CREDITS.free: 3 lifetime credits for free users. -/
def PLAN_CREDITS.free : Int := 3

/-- PLAN_CREDITS.pro: 40 credits per month for Pro users. -/
def PLAN_CREDITS.pro : Int := 40

/-- Result of deductCredits / addCredits, mirroring the returned object:
ok b is s success true, newBalance b; duplicate is success true,
duplicate true (note: no balance field); err m is success false, error m. -/
inductive OpResult where
  | ok (newBalance : Int)
  | duplicate
  | err (msg : String)
deriving Repr, DecidableEq

/-- getCreditsBalance (server.js lines 336-385): lazily creates a missing
account with the free allotment plus an init grant ledger row, applies the
manual-pro correction (plan pro, no subscription id, flag unset: balance is
rewritten to PLAN_CREDITS.pro with no ledger row), else returns the account. -/
def getCreditsBalance (userId : String) (s : DB) : Account × DB :=
  match lookupUser s userId with
  | none =>
      let acct : Account :=
        { plan := "free", credits_balance := PLAN_CREDITS.free,
          paypalSubscriptionId := none, manualProCreditsGranted := false }
      let entry : LedgerEntry :=
        { userId := userId, amount := PLAN_CREDITS.free, type := "grant",
          description := "Initial free plan credits",
          idempotencyKey := some ("init_" ++ userId), paypalEventId := none,
          balanceAfter := none }
      (acct, { s with users := setUser s.users userId acct,
                      ledger := s.ledger ++ [entry] })
  | some acct =>
      if acct.plan == "pro" && acct.paypalSubscriptionId == none
          && !acct.manualProCreditsGranted then
        let acct' := { acct with credits_balance := PLAN_CREDITS.pro,
                                 manualProCreditsGranted := true }
        (acct', { s with users := setUser s.users userId acct' })
      else
        (acct, s)

/-- deductCredits (server.js lines 388-448): idempotency-key replay check
first, then one transaction that reads the balance, throws on a missing user
or on balance < amount (the catch turns the throw into an err result and the
transaction leaves no writes), else writes balance - amount and appends the
deduction ledger row in the same transaction. -/
def deductCredits (userId : String) (amount : Int) (description : String)
    (idempotencyKey : Option String) (s : DB) : OpResult × DB :=
  let isDup := match idempotencyKey with
    | some k => keyExists s.ledger k
    | none => false
  if isDup then (.duplicate, s)
  else
    match lookupUser s userId with
    | none => (.err "User not found", s)
    | some acct =>
        if acct.credits_balance < amount then (.err "Insufficient credits", s)
        else
          let newBalance := acct.credits_balance - amount
          let entry : LedgerEntry :=
            { userId := userId, amount := -amount, type := "deduction",
              description := description, idempotencyKey := idempotencyKey,
              paypalEventId := none, balanceAfter := some newBalance }
          (.ok newBalance,
            { s with
              users := setUser s.users userId
                         { acct with credits_balance := newBalance },
              ledger := s.ledger ++ [entry] })

/-- addCredits (server.js lines 451-519): idempotency check first, then one
transaction that reads balance and plan (0 and free when the account is
missing), clamps the new balance at zero with Math.max, updates or creates
the account (a purchase sets plan pro), and appends the ledger row. txFails
models the store failing the transaction itself: the catch at lines 515-518
returns success false and the transaction leaves no writes. -/
def addCredits (userId : String) (amount : Int) (type : String)
    (description : String) (idempotencyKey : String)
    (paypalEventId : Option String) (txFails : Bool) (s : DB) :
    OpResult × DB :=
  if keyExists s.ledger idempotencyKey then (.duplicate, s)
  else if txFails then (.err "Store unavailable", s)
  else
    let currentBalance := match lookupUser s userId with
      | some acct => acct.credits_balance
      | none => 0
    let newBalance := max 0 (currentBalance + amount)
    let acct' : Account := match lookupUser s userId with
      | some acct =>
          { acct with credits_balance := newBalance,
                      plan := if type == "purchase" then "pro" else acct.plan }
      | none =>
          { plan := if type == "purchase" then "pro" else "free",
            credits_balance := newBalance,
            paypalSubscriptionId := none, manualProCreditsGranted := false }
    let entry : LedgerEntry :=
      { userId := userId, amount := amount, type := type,
        description := description, idempotencyKey := some idempotencyKey,
        paypalEventId := paypalEventId, balanceAfter := some newBalance }
    (.ok newBalance,
      { s with users := setUser s.users userId acct',
               ledger := s.ledger ++ [entry] })

/-- Sum of the amount fields of the ledger rows belonging to user u. -/
def ledgerSum (l : List LedgerEntry) (u : String) : Int :=
  ((l.filter (fun e => e.userId == u)).map LedgerEntry.amount).sum

/-- The ledger-reconciliation invariant of the spec: every stored account
balance equals the sum of that user's ledger amounts, strengthened with the
bookkeeping fact that every ledger row belongs to an existing account. -/
def ledgerInv (s : DB) : Prop :=
  (∀ p ∈ s.users, p.2.credits_balance = ledgerSum s.ledger p.1) ∧
  (∀ e ∈ s.ledger, (lookupUser s e.userId).isSome)

instance (s : DB) : Decidable (ledgerInv s) := by
  unfold ledgerInv; infer_instance

/-- The fields of a parsed PayPal webhook body the handler reads: event.id,
event.event_type, event.resource?.id and event.resource?.custom_id. -/
structure WebhookEvent where
  id : String
  event_type : String
  resourceId : Option String
  customId : Option String
deriving Repr, DecidableEq

/-- isWebhookProcessed (server.js lines 317-322). -/
def isWebhookProcessed (s : DB) (eventId : String) : Bool :=
  s.processedWebhooks.any (fun p => p.1 == eventId)

/-- markWebhookProcessed (server.js lines 325-333): doc(eventId).set, so the
collection keeps one record per event id. -/
def markWebhookProcessed (s : DB) (eventId eventType : String) : DB :=
  { s with processedWebhooks :=
      (eventId, eventType) :: s.processedWebhooks.filter (fun p => !(p.1 == eventId)) }

/-- The users.where(paypalSubscriptionId == subId).limit(1) query. -/
def lookupUserBySub (s : DB) (subId : String) : Option String :=
  (s.users.find? (fun p => p.2.paypalSubscriptionId == some subId)).map Prod.fst

/-- Step 3 of the webhook handler (server.js lines 1284-1378): dispatch on
event_type. Returns (threw, state): threw is true when an exception escapes
to the handler's outer catch. grantTxFails makes the addCredits transaction
fail (that failure is caught inside addCredits and returned as an err result,
which this dispatch ignores just as the source ignores result.success);
subUpdateFails makes the post-grant users.doc(userId).update throw, as does
updating a document that does not exist. -/
def applyWebhookEvent (ev : WebhookEvent) (grantTxFails subUpdateFails : Bool)
    (s : DB) : Bool × DB :=
  if ev.event_type == "BILLING.SUBSCRIPTION.ACTIVATED"
      || ev.event_type == "PAYMENT.SALE.COMPLETED" then
    match ev.resourceId with
    | none => (false, s)
    | some subId =>
        let userId? := match ev.customId with
          | some c => some c
          | none => lookupUserBySub s subId
        match userId? with
        | none => (false, s)
        | some userId =>
            let r := addCredits userId PLAN_CREDITS.pro "purchase"
                       ("Pro subscription payment (" ++ ev.event_type ++ ")")
                       ("paypal_" ++ ev.id) (some ev.id) grantTxFails s
            let s1 := r.2
            if subUpdateFails then (true, s1)
            else
              match lookupUser s1 userId with
              | none => (true, s1)
              | some acct =>
                  let acct' := { acct with paypalSubscriptionId := some subId,
                                           plan := "pro" }
                  (false, { s1 with users := setUser s1.users userId acct' })
  else if ev.event_type == "PAYMENT.SALE.REFUNDED"
      || ev.event_type == "PAYMENT.SALE.REVERSED" then
    match ev.resourceId with
    | none => (false, s)
    | some subId =>
        match lookupUserBySub s subId with
        | none => (false, s)
        | some userId =>
            let r := addCredits userId (-PLAN_CREDITS.pro) "refund"
                       ("Payment refunded/reversed (" ++ ev.event_type ++ ")")
                       ("paypal_refund_" ++ ev.id) (some ev.id) grantTxFails s
            (false, r.2)
  else if ev.event_type == "BILLING.SUBSCRIPTION.CANCELLED"
      || ev.event_type == "BILLING.SUBSCRIPTION.SUSPENDED"
      || ev.event_type == "BILLING.SUBSCRIPTION.EXPIRED" then
    match ev.resourceId with
    | none => (false, s)
    | some subId =>
        match lookupUserBySub s subId with
        | none => (false, s)
        | some userId =>
            match lookupUser s userId with
            | none => (true, s)
            | some acct =>
                let acct' := { acct with plan := "free" }
                (false, { s with users := setUser s.users userId acct' })
  else (false, s)

/-- The POST /api/paypal/webhook handler (server.js lines 1254-1388) with the
db handle present: verify the signature (401 on failure, before any side
effect), drop already-processed event ids, apply the event, and mark the
event processed only on the no-exception path; the outer catch answers 200
without writing the record. Returns the HTTP status and the new state. -/
def processPaypalWebhook (ev : WebhookEvent) (sigValid : Bool)
    (grantTxFails subUpdateFails : Bool) (s : DB) : Nat × DB :=
  if !sigValid then (401, s)
  else if isWebhookProcessed s ev.id then (200, s)
  else
    let r := applyWebhookEvent ev grantTxFails subUpdateFails s
    if r.1 then (200, r.2)
    else (200, markWebhookProcessed r.2 ev.id ev.event_type)

/-- Outcome of admin.auth().verifyIdToken: a decoded uid, or a throw. -/
inductive TokenVerify where
  | ok (uid : String)
  | fail
deriving Repr, DecidableEq

/-- The 403 payload sent by the usage gate. -/
structure RejectPayload where
  error : String
  message : String
  credits_balance : Int
  plan : String
deriving Repr, DecidableEq

/-- What a gate run does with the request: pass it on or answer it. -/
inductive GateOutcome where
  | proceed
  | reject (status : Nat) (payload : RejectPayload)
deriving Repr, DecidableEq

/-- The upgrade message chosen by the gates for a given plan. -/
def insufficientMessage (plan : String) : String :=
  if plan == "free" then
    "You have used all 3 free lifetime uploads. Upgrade to Pro for 40 uploads/month!"
  else
    "You have no credits remaining. Your credits will renew with your next billing cycle."

/-- authHeader.startsWith(Bearer-space), expressed on the character lists so
that it evaluates inside the kernel. -/
def startsWithBearer (h : String) : Bool :=
  "Bearer ".data.isPrefixOf h.data

/-- checkCredits middleware (server.js lines 522-555): calls next() when the
authorization header is absent or not a Bearer header, when db is null, or
when token verification throws (the catch also calls next()); otherwise it
fetches the balance and answers 403 with plan and balance when the balance
is not positive, else attaches the data and calls next(). -/
def checkCredits (hasDb : Bool) (authHeader : Option String)
    (verify : TokenVerify) (s : DB) : GateOutcome × DB :=
  match authHeader with
  | none => (.proceed, s)
  | some h =>
      if !(startsWithBearer h) || !hasDb then (.proceed, s)
      else
        match verify with
        | .fail => (.proceed, s)
        | .ok uid =>
            let r := getCreditsBalance uid s
            let userData := r.1
            if userData.credits_balance ≤ 0 then
              (.reject 403
                { error := "Insufficient credits",
                  message := insufficientMessage userData.plan,
                  credits_balance := userData.credits_balance,
                  plan := userData.plan }, r.2)
            else (.proceed, r.2)

/-- The inline credit pre-check of POST /api/generate-plan (server.js lines
566-580), reached after the authenticate middleware has resolved the uid:
skipped entirely when db is null, else getCreditsBalance and a 403 carrying
plan and balance exactly when the balance is not positive. -/
def generatePlanGate (hasDb : Bool) (uid : String) (s : DB) :
    GateOutcome × DB :=
  if !hasDb then (.proceed, s)
  else
    let r := getCreditsBalance uid s
    let userData := r.1
    if userData.credits_balance ≤ 0 then
      (.reject 403
        { error := "Insufficient credits",
          message := insufficientMessage userData.plan,
          credits_balance := userData.credits_balance,
          plan := userData.plan }, r.2)
    else (.proceed, r.2)

/-- The Balance Manager operations, as one type, for invariant-preservation
statements quantified over the operation. -/
inductive CoreOp where
  | balance (userId : String)
  | deduct (userId : String) (amount : Int) (description : String)
      (idempotencyKey : Option String)
  | grant (userId : String) (amount : Int) (type : String)
      (description : String) (idempotencyKey : String)
      (paypalEventId : Option String)
deriving Repr, DecidableEq

/-- State transition of a Balance Manager operation (store available, the
grant transaction not failing). -/
def applyOp (op : CoreOp) (s : DB) : DB :=
  match op with
  | .balance u => (getCreditsBalance u s).2
  | .deduct u a d k => (deductCredits u a d k s).2
  | .grant u a t d k e => (addCredits u a t d k e false s).2

/-- Does getCreditsBalance u take the manual-pro correction path in state s? -/
def correctionTriggered (s : DB) (u : String) : Bool :=
  match lookupUser s u with
  | some a => a.plan == "pro" && a.paypalSubscriptionId == none
                && !a.manualProCreditsGranted
  | none => false

/-- Does addCredits of amount a to user u clamp the balance at zero in s? -/
def grantClamps (s : DB) (u : String) (a : Int) : Bool :=
  (match lookupUser s u with
   | some acct => acct.credits_balance
   | none => 0) + a < 0

/-- The operations on which the ledger-reconciliation invariant is
preserved: any deduct, a balance query that does not take the manual-pro
correction path, and a grant that does not clamp. -/
def opSafe (op : CoreOp) (s : DB) : Prop :=
  match op with
  | .balance u => correctionTriggered s u = false
  | .deduct _ _ _ _ => True
  | .grant u a _ _ _ _ => grantClamps s u a = false

instance (op : CoreOp) (s : DB) : Decidable (opSafe op s) := by
  unfold opSafe; cases op <;> infer_instance

theorem find_filter_erased (l : List (String × Account)) (u v : String)
    (h : v ≠ u) :
    (l.filter (fun p => !(p.1 == u))).find? (fun p => p.1 == v)
      = l.find? (fun p => p.1 == v) := by
  induction l with
  | nil => rfl
  | cons a t ih =>
      have huv : (u == v) = false := by
        simp; exact fun e => h e.symm
      by_cases hau : a.1 = u
      · have hav : (a.1 == v) = false := by
          simp [hau]; exact fun hv => h hv.symm
        simp [List.filter_cons, List.find?_cons, hau, hav, huv, ih]
      · by_cases hav : a.1 = v
        · simp [List.filter_cons, List.find?_cons, hau, hav, h, ih]
        · simp [List.filter_cons, List.find?_cons, hau, hav, h, ih]

theorem lookupA_set (l : List (String × Account)) (u : String) (a : Account)
    (v : String) :
    lookupA (setUser l u a) v = if v = u then some a else lookupA l v := by
  unfold lookupA setUser
  by_cases hv : v = u
  · simp [List.find?_cons, hv]
  · simp only [List.find?_cons]
    have : (u == v) = false := by simp; exact fun e => hv e.symm
    simp [this, hv, find_filter_erased l u v hv]

theorem lookupUser_mk (us : List (String × Account)) (l : List LedgerEntry)
    (pw : List (String × String)) (v : String) :
    lookupUser ⟨us, l, pw⟩ v = lookupA us v := rfl

theorem mem_setUser (l : List (String × Account)) (u : String) (a : Account)
    (p : String × Account) :
    p ∈ setUser l u a ↔ p = (u, a) ∨ (p ∈ l ∧ p.1 ≠ u) := by
  simp [setUser, List.mem_filter]

theorem lookupA_eq_some (l : List (String × Account)) (u : String)
    (a : Account) (h : lookupA l u = some a) :
    ∃ p, p ∈ l ∧ p.1 = u ∧ p.2 = a := by
  unfold lookupA at h
  cases hf : l.find? (fun p => p.1 == u) with
  | none => rw [hf] at h; simp at h
  | some pr =>
      rw [hf] at h
      simp at h
      have hmem := List.mem_of_find?_eq_some hf
      have hkey := List.find?_some hf
      simp at hkey
      exact ⟨pr, hmem, hkey, h⟩

theorem ledgerSum_append (l₁ l₂ : List LedgerEntry) (u : String) :
    ledgerSum (l₁ ++ l₂) u = ledgerSum l₁ u + ledgerSum l₂ u := by
  simp [ledgerSum, List.filter_append]

theorem ledgerSum_single (e : LedgerEntry) (u : String) :
    ledgerSum [e] u = if e.userId = u then e.amount else 0 := by
  by_cases h : e.userId = u <;> simp [ledgerSum, List.filter_cons, h]

theorem ledgerSum_eq_zero (l : List LedgerEntry) (u : String)
    (h : ∀ e ∈ l, e.userId ≠ u) : ledgerSum l u = 0 := by
  have : l.filter (fun e => e.userId == u) = [] := by
    rw [List.filter_eq_nil_iff]
    intro e he
    simp [h e he]
  simp [ledgerSum, this]

theorem ledgerSum_of_missing (s : DB) (u : String)
    (h : lookupUser s u = none) (inv2 : ∀ e ∈ s.ledger, (lookupUser s e.userId).isSome) :
    ledgerSum s.ledger u = 0 := by
  apply ledgerSum_eq_zero
  intro e he heq
  have := inv2 e he
  rw [heq, h] at this
  simp at this

theorem ledgerInv_balance (s : DB) (u : String)
    (hsafe : correctionTriggered s u = false) (inv : ledgerInv s) :
    ledgerInv (getCreditsBalance u s).2 := by
  obtain ⟨inv1, inv2⟩ := inv
  cases hl : lookupUser s u with
  | some acct =>
      have hcond : (acct.plan == "pro" && acct.paypalSubscriptionId == none
          && !acct.manualProCreditsGranted) = false := by
        unfold correctionTriggered at hsafe
        rw [hl] at hsafe
        exact hsafe
      simp only [getCreditsBalance, hl, hcond, Bool.false_eq_true, if_false]
      exact And.intro inv1 inv2
  | none =>
      have hzero : ledgerSum s.ledger u = 0 := ledgerSum_of_missing s u hl inv2
      simp only [getCreditsBalance, hl]
      constructor
      · intro p hp
        simp only at hp
        rw [mem_setUser] at hp
        rcases hp with rfl | ⟨hp, hne⟩
        · simp [ledgerSum_append, ledgerSum_single, hzero, PLAN_CREDITS.free]
        · have := inv1 p hp
          simp only [ledgerSum_append, ledgerSum_single]
          rw [if_neg (fun hh => hne hh.symm)]
          simpa using this
      · intro e he
        simp only [List.mem_append] at he
        simp only [lookupUser_mk, lookupA_set]
        rcases he with he | he
        · by_cases hu : e.userId = u
          · simp [hu]
          · simp only [if_neg hu]
            exact inv2 e he
        · simp at he
          rw [he]
          simp

theorem ledgerInv_deduct (s : DB) (u : String) (a : Int) (d : String)
    (k : Option String) (inv : ledgerInv s) :
    ledgerInv (deductCredits u a d k s).2 := by
  obtain ⟨inv1, inv2⟩ := inv
  simp only [deductCredits]
  split
  · exact And.intro inv1 inv2
  · cases hl : lookupUser s u with
    | none => simp only [hl]; exact And.intro inv1 inv2
    | some acct =>
        simp only [hl]
        split
        · exact And.intro inv1 inv2
        · obtain ⟨p, hpmem, hp1, hp2⟩ := lookupA_eq_some s.users u acct hl
          have hbal : acct.credits_balance = ledgerSum s.ledger u := by
            have hq := inv1 p hpmem
            rw [hp1, hp2] at hq
            exact hq
          constructor
          · intro q hq
            simp only at hq
            rw [mem_setUser] at hq
            rcases hq with rfl | ⟨hq, hne⟩
            · simp only [ledgerSum_append, ledgerSum_single, if_pos rfl]
              simp [hbal]
              omega
            · have hiq := inv1 q hq
              simp only [ledgerSum_append, ledgerSum_single]
              rw [if_neg (fun hh => hne hh.symm)]
              simpa using hiq
          · intro e he
            simp only [List.mem_append] at he
            simp only [lookupUser_mk, lookupA_set]
            rcases he with he | he
            · by_cases hu : e.userId = u
              · simp [hu]
              · simp only [if_neg hu]
                exact inv2 e he
            · simp at he
              rw [he]
              simp

theorem ledgerInv_grant (s : DB) (u : String) (a : Int) (t d k : String)
    (e? : Option String) (hsafe : grantClamps s u a = false)
    (inv : ledgerInv s) :
    ledgerInv (addCredits u a t d k e? false s).2 := by
  obtain ⟨inv1, inv2⟩ := inv
  simp only [addCredits, Bool.false_eq_true, if_false]
  split
  · exact And.intro inv1 inv2
  · cases hl : lookupUser s u with
    | some acct =>
        have hnoclamp : max 0 (acct.credits_balance + a)
            = acct.credits_balance + a := by
          unfold grantClamps at hsafe
          rw [hl] at hsafe
          simp at hsafe
          omega
        obtain ⟨p, hpmem, hp1, hp2⟩ := lookupA_eq_some s.users u acct hl
        have hbal : acct.credits_balance = ledgerSum s.ledger u := by
          have hq := inv1 p hpmem
          rw [hp1, hp2] at hq
          exact hq
        simp only [hl, hnoclamp]
        constructor
        · intro q hq
          simp only at hq
          rw [mem_setUser] at hq
          rcases hq with rfl | ⟨hq, hne⟩
          · simp only [ledgerSum_append, ledgerSum_single, if_pos rfl]
            simp [hbal]
          · have hiq := inv1 q hq
            simp only [ledgerSum_append, ledgerSum_single]
            rw [if_neg (fun hh => hne hh.symm)]
            simpa using hiq
        · intro e he
          simp only [List.mem_append] at he
          simp only [lookupUser_mk, lookupA_set]
          rcases he with he | he
          · by_cases hu : e.userId = u
            · simp [hu]
            · simp only [if_neg hu]
              exact inv2 e he
          · simp at he
            rw [he]
            simp
    | none =>
        have hzero : ledgerSum s.ledger u = 0 :=
          ledgerSum_of_missing s u hl inv2
        have hnoclamp : max 0 ((0 : Int) + a) = 0 + a := by
          unfold grantClamps at hsafe
          rw [hl] at hsafe
          simp at hsafe
          omega
        simp only [hl, hnoclamp]
        constructor
        · intro q hq
          simp only at hq
          rw [mem_setUser] at hq
          rcases hq with rfl | ⟨hq, hne⟩
          · simp [ledgerSum_append, ledgerSum_single, hzero]
          · have hiq := inv1 q hq
            simp only [ledgerSum_append, ledgerSum_single]
            rw [if_neg (fun hh => hne hh.symm)]
            simpa using hiq
        · intro e he
          simp only [List.mem_append] at he
          simp only [lookupUser_mk, lookupA_set]
          rcases he with he | he
          · by_cases hu : e.userId = u
            · simp [hu]
            · simp only [if_neg hu]
              exact inv2 e he
          · simp at he
            rw [he]
            simp

/-- Account of a user that an admin switched to pro by hand: plan pro, no
subscription id, correction flag unset, balance still at the free allotment. -/
def manualProAccount : Account :=
  { plan := "pro", credits_balance := 3, paypalSubscriptionId := none,
    manualProCreditsGranted := false }

/-- The single init grant row matching a balance of 3. -/
def initEntryU1 : LedgerEntry :=
  { userId := "u1", amount := 3, type := "grant",
    description := "Initial free plan credits",
    idempotencyKey := some "init_u1", paypalEventId := none,
    balanceAfter := none }

/-- A state satisfying the ledger-reconciliation invariant in which user u1
was manually switched to the pro plan. -/
def manualProState : DB :=
  { users := [("u1", manualProAccount)], ledger := [initEntryU1],
    processedWebhooks := [] }

/-- Claim C1 counterexample: the ledger-sum invariant is not preserved by
the manual-pro correction path of getBalance. In manualProState the sum of
the ledger amounts of u1 (3) equals the stored balance (3), yet after
getCreditsBalance u1 the balance is rewritten to 40 with no ledger row, so
the invariant fails. -/
theorem getBalance_correction_breaks_ledger_sum :
    ledgerInv manualProState ∧
      ¬ ledgerInv (applyOp (CoreOp.balance "u1") manualProState) := by
  constructor
  · decide
  · decide

/-- Claim C1 (amended): for every state in which each stored balance equals
the sum of that user's ledger amounts (and every ledger row belongs to a
stored account), the invariant is preserved by every Balance Manager
operation except the two paths that deliberately move a balance without a
matching ledger delta: a getBalance call that takes the manual-pro
correction path, and a grant whose Math.max clamp engages. deduct always
preserves it; the webhook-driven calls are addCredits invocations plus plan
and subscription-id field updates that touch neither balance nor ledger. -/
theorem ledger_reconciliation_preserved (op : CoreOp) (s : DB)
    (hinv : ledgerInv s) (hsafe : opSafe op s) :
    ledgerInv (applyOp op s) := by
  cases op with
  | balance u => exact ledgerInv_balance s u hsafe hinv
  | deduct u a d k => exact ledgerInv_deduct s u a d k hinv
  | grant u a t d k e => exact ledgerInv_grant s u a t d k e hsafe hinv

/-- Witness for C1: a concrete invariant-holding state and a concrete deduct
on it, with every hypothesis discharged by evaluation. -/
theorem ledger_reconciliation_preserved_witness :
    ledgerInv manualProState ∧
      opSafe (CoreOp.deduct "u1" 1 "Study plan generation" none) manualProState ∧
      ledgerInv (applyOp (CoreOp.deduct "u1" 1 "Study plan generation" none)
        manualProState) :=
  ⟨by decide, by decide,
    ledger_reconciliation_preserved
      (CoreOp.deduct "u1" 1 "Study plan generation" none) manualProState
      (by decide) (by decide)⟩

/-- A fresh free account with the full free allotment. -/
def freshFreeAccount : Account :=
  { plan := "free", credits_balance := 3, paypalSubscriptionId := none,
    manualProCreditsGranted := false }

/-- A state holding one fresh free user u2 with balance 3 and no ledger
rows carrying any idempotency key of interest. -/
def freshU2State : DB :=
  { users := [("u2", freshFreeAccount)], ledger := [], processedWebhooks := [] }

/-- Claim C2 counterexample: deduct replayed with the same idempotency key
does not return the current balance. Against a fresh balance of 3, the first
deduct of 1 with key k1 returns newBalance 2, but the replay returns the
bare duplicate result, which carries no balance field at all, so the two
calls do not return the same newBalance. -/
theorem deduct_replay_returns_no_balance :
    (deductCredits "u2" 1 "AI Chat Interaction" (some "k1") freshU2State).1
        = OpResult.ok 2 ∧
    (deductCredits "u2" 1 "AI Chat Interaction" (some "k1")
        (deductCredits "u2" 1 "AI Chat Interaction" (some "k1")
          freshU2State).2).1
        = OpResult.duplicate ∧
    OpResult.duplicate ≠ OpResult.ok 2 := by
  refine ⟨by decide, by decide, by decide⟩

/-- Claim C2 (amended): a deduct whose idempotency key is already carried by
some ledger row mutates nothing and returns the bare duplicate result (which
carries no balance); and two successive deducts with the same fresh key
against a sufficient balance produce exactly one decrement, with only the
first call reporting the new balance. -/
theorem deduct_idempotent_replay (s : DB) (u d : String) (amount : Int)
    (k : String) (acct : Account)
    (hfresh : keyExists s.ledger k = false)
    (hacct : lookupUser s u = some acct)
    (hbal : amount ≤ acct.credits_balance) :
    (∀ s' : DB, ∀ u' d' : String, ∀ a' : Int, ∀ k' : String,
        keyExists s'.ledger k' = true →
        deductCredits u' a' d' (some k') s' = (.duplicate, s')) ∧
    (deductCredits u amount d (some k) s).1
        = .ok (acct.credits_balance - amount) ∧
    deductCredits u amount d (some k) (deductCredits u amount d (some k) s).2
        = (.duplicate, (deductCredits u amount d (some k) s).2) ∧
    lookupUser (deductCredits u amount d (some k) s).2 u
        = some { acct with credits_balance := acct.credits_balance - amount } := by
  have replay : ∀ s' : DB, ∀ u' d' : String, ∀ a' : Int, ∀ k' : String,
      keyExists s'.ledger k' = true →
      deductCredits u' a' d' (some k') s' = (.duplicate, s') := by
    intro s' u' d' a' k' hk
    simp [deductCredits, hk]
  have hnotlt : ¬ (acct.credits_balance < amount) := not_lt.mpr hbal
  have hfirst : deductCredits u amount d (some k) s
      = (.ok (acct.credits_balance - amount),
         { s with
           users := setUser s.users u
             { acct with credits_balance := acct.credits_balance - amount },
           ledger := s.ledger ++
             [{ userId := u, amount := -amount, type := "deduction",
                description := d, idempotencyKey := some k,
                paypalEventId := none,
                balanceAfter := some (acct.credits_balance - amount) }] }) := by
    simp [deductCredits, hfresh, hacct, hnotlt]
  refine ⟨replay, by rw [hfirst], ?_, ?_⟩
  · apply replay
    rw [hfirst]
    simp [keyExists]
  · rw [hfirst]
    simp [lookupUser_mk, lookupA_set]

/-- Witness for C2: a concrete fresh state, key and balance, every
hypothesis discharged by evaluation. -/
theorem deduct_idempotent_replay_witness :
    keyExists freshU2State.ledger "k1" = false ∧
    lookupUser freshU2State "u2" = some freshFreeAccount ∧
    (1 : Int) ≤ freshFreeAccount.credits_balance ∧
    deductCredits "u2" 1 "AI Chat Interaction" (some "k1")
        (deductCredits "u2" 1 "AI Chat Interaction" (some "k1")
          freshU2State).2
      = (.duplicate,
         (deductCredits "u2" 1 "AI Chat Interaction" (some "k1")
           freshU2State).2) :=
  ⟨by decide, by decide, by decide,
    (deduct_idempotent_replay freshU2State "u2" "AI Chat Interaction" 1 "k1"
      freshFreeAccount (by decide) (by decide) (by decide)).2.2.1⟩

/-- Claim C4: against an existing account with balance below the requested
amount, deduct fails with the insufficient-credits error and the whole state
(balance and ledger) is unchanged; and a non-duplicate sufficient deduct
produces exactly the state with the balance written to b - a and one
deduction row with balanceAfter b - a appended, the two together, so no
partial application exists. -/
theorem deduct_insufficient_and_atomic (s : DB) (u d : String) (a : Int)
    (acct : Account) (k : Option String)
    (hnodup : ∀ kk, k = some kk → keyExists s.ledger kk = false)
    (hacct : lookupUser s u = some acct) :
    (acct.credits_balance < a →
      deductCredits u a d k s = (.err "Insufficient credits", s)) ∧
    (¬ acct.credits_balance < a →
      deductCredits u a d k s
        = (.ok (acct.credits_balance - a),
           { s with
             users := setUser s.users u
               { acct with credits_balance := acct.credits_balance - a },
             ledger := s.ledger ++
               [{ userId := u, amount := -a, type := "deduction",
                  description := d, idempotencyKey := k,
                  paypalEventId := none,
                  balanceAfter := some (acct.credits_balance - a) }] })) := by
  constructor
  · intro hlt
    cases k with
    | none => simp [deductCredits, hacct, hlt]
    | some kk =>
        have hk := hnodup kk rfl
        simp [deductCredits, hk, hacct, hlt]
  · intro hge
    cases k with
    | none => simp [deductCredits, hacct, hge]
    | some kk =>
        have hk := hnodup kk rfl
        simp [deductCredits, hk, hacct, hge]

/-- Witness for C4: balance 3, deduct 5, insufficient and state unchanged. -/
theorem deduct_insufficient_and_atomic_witness :
    lookupUser freshU2State "u2" = some freshFreeAccount ∧
    freshFreeAccount.credits_balance < 5 ∧
    deductCredits "u2" 5 "Study plan generation" none freshU2State
      = (.err "Insufficient credits", freshU2State) :=
  ⟨by decide, by decide,
    (deduct_insufficient_and_atomic freshU2State "u2"
      "Study plan generation" 5 freshFreeAccount none
      (fun kk h => by cases h) (by decide)).1 (by decide)⟩

/-- Claim C5: a non-duplicate grant of any integer amount a to an existing
account with balance b returns and stores the balance max(0, b + a): it is
never negative, and equals exactly 0 whenever b + a < 0. -/
theorem grant_clamped_at_zero (s : DB) (u t d k : String) (a : Int)
    (acct : Account) (e? : Option String)
    (hfresh : keyExists s.ledger k = false)
    (hacct : lookupUser s u = some acct) :
    (addCredits u a t d k e? false s).1
        = .ok (max 0 (acct.credits_balance + a)) ∧
    (lookupUser (addCredits u a t d k e? false s).2 u).map
        Account.credits_balance = some (max 0 (acct.credits_balance + a)) ∧
    0 ≤ max 0 (acct.credits_balance + a) ∧
    (acct.credits_balance + a < 0 → max 0 (acct.credits_balance + a) = 0) := by
  refine ⟨?_, ?_, le_max_left 0 _, fun h => max_eq_left (by omega)⟩
  · simp [addCredits, hfresh, hacct]
  · simp [addCredits, hfresh, hacct, lookupUser_mk, lookupA_set]

/-- Witness for C5: balance 3, grant of -40 (refund reversal), stored and
returned balance exactly 0. -/
theorem grant_clamped_at_zero_witness :
    keyExists freshU2State.ledger "paypal_refund_e1" = false ∧
    lookupUser freshU2State "u2" = some freshFreeAccount ∧
    (addCredits "u2" (-40) "refund" "Payment refunded/reversed"
        "paypal_refund_e1" (some "e1") false freshU2State).1
      = .ok (max 0 (freshFreeAccount.credits_balance + (-40))) :=
  ⟨by decide, by decide,
    (grant_clamped_at_zero freshU2State "u2" "refund"
      "Payment refunded/reversed" "paypal_refund_e1" (-40) freshFreeAccount
      (some "e1") (by decide) (by decide)).1⟩

/-- How many ledger rows carry idempotency key k. -/
def countKey (l : List LedgerEntry) (k : String) : Nat :=
  (l.filter (fun e => e.idempotencyKey == some k)).length

theorem countKey_zero_of_fresh (l : List LedgerEntry) (k : String)
    (h : keyExists l k = false) : countKey l k = 0 := by
  unfold countKey
  have : l.filter (fun e => e.idempotencyKey == some k) = [] := by
    rw [List.filter_eq_nil_iff]
    intro e he
    intro hk
    have : keyExists l k = true := by
      unfold keyExists
      rw [List.any_eq_true]
      exact ⟨e, he, hk⟩
    rw [this] at h
    cases h
  rw [this]
  rfl

/-- Claim C6: the first getBalance call of an unknown userId returns plan
free with creditsBalance 3, stores that account, and appends exactly one
grant ledger row of amount 3 carrying idempotency key init_userId. -/
theorem first_getBalance_initializes (s : DB) (u : String)
    (hmiss : lookupUser s u = none)
    (hkey : keyExists s.ledger ("init_" ++ u) = false) :
    (getCreditsBalance u s).1
        = { plan := "free", credits_balance := 3,
            paypalSubscriptionId := none, manualProCreditsGranted := false } ∧
    lookupUser (getCreditsBalance u s).2 u
        = some { plan := "free", credits_balance := 3,
                 paypalSubscriptionId := none,
                 manualProCreditsGranted := false } ∧
    ((getCreditsBalance u s).2.ledger.filter
        (fun e => e.idempotencyKey == some ("init_" ++ u)))
      = [{ userId := u, amount := 3, type := "grant",
           description := "Initial free plan credits",
           idempotencyKey := some ("init_" ++ u), paypalEventId := none,
           balanceAfter := none }] := by
  have hplan : PLAN_CREDITS.free = 3 := rfl
  refine ⟨?_, ?_, ?_⟩
  · simp [getCreditsBalance, hmiss, PLAN_CREDITS.free]
  · simp [getCreditsBalance, hmiss, PLAN_CREDITS.free, lookupUser_mk,
      lookupA_set]
  · have hnil : s.ledger.filter
        (fun e => e.idempotencyKey == some ("init_" ++ u)) = [] := by
      rw [List.filter_eq_nil_iff]
      intro e he hk
      have : keyExists s.ledger ("init_" ++ u) = true := by
        unfold keyExists
        rw [List.any_eq_true]
        exact ⟨e, he, hk⟩
      rw [this] at hkey
      cases hkey
    simp [getCreditsBalance, hmiss, PLAN_CREDITS.free, List.filter_append,
      hnil]

/-- Witness for C6: unknown user u9 over the empty store. -/
theorem first_getBalance_initializes_witness :
    lookupUser ⟨[], [], []⟩ "u9" = none ∧
    keyExists (DB.ledger ⟨[], [], []⟩) "init_u9" = false ∧
    (getCreditsBalance "u9" ⟨[], [], []⟩).1
      = { plan := "free", credits_balance := 3,
          paypalSubscriptionId := none, manualProCreditsGranted := false } :=
  ⟨by decide, by decide,
    (first_getBalance_initializes ⟨[], [], []⟩ "u9" (by decide)
      (by decide)).1⟩

/-- Claim C9: deduct does not enforce the amount > 0 precondition: for an
existing account with non-negative balance b and any a < 0, an unkeyed
deduct succeeds, writes b - a (strictly above b), and appends a ledger row
of type deduction whose amount field is the positive value -a. -/
theorem deduct_negative_amount_increases_balance (s : DB) (u d : String)
    (a : Int) (acct : Account)
    (hneg : a < 0) (hnn : 0 ≤ acct.credits_balance)
    (hacct : lookupUser s u = some acct) :
    deductCredits u a d none s
      = (.ok (acct.credits_balance - a),
         { s with
           users := setUser s.users u
             { acct with credits_balance := acct.credits_balance - a },
           ledger := s.ledger ++
             [{ userId := u, amount := -a, type := "deduction",
                description := d, idempotencyKey := none,
                paypalEventId := none,
                balanceAfter := some (acct.credits_balance - a) }] }) ∧
    acct.credits_balance < acct.credits_balance - a ∧
    0 < -a := by
  have hge : ¬ acct.credits_balance < a := by omega
  refine ⟨?_, by omega, by omega⟩
  simp [deductCredits, hacct, hge]

/-- Witness for C9: balance 3, deduct of -2 yields balance 5 and a
deduction row of amount 2. -/
theorem deduct_negative_amount_increases_balance_witness :
    (-2 : Int) < 0 ∧ (0 : Int) ≤ freshFreeAccount.credits_balance ∧
    (deductCredits "u2" (-2) "AI Chat Interaction" none freshU2State).1
      = .ok 5 :=
  ⟨by decide, by decide, by
    have h := (deduct_negative_amount_increases_balance freshU2State "u2"
      "AI Chat Interaction" (-2) freshFreeAccount (by decide) (by decide)
      (by decide)).1
    rw [h]
    decide⟩

/-- Claim C8: with the store available and a verified Bearer token, both
usage gates (the checkCredits middleware and the inline pre-check of
POST /api/generate-plan) call getBalance and reject with a 403 carrying the
account's current plan and balance exactly when creditsBalance is not
positive; when it is positive the action proceeds. -/
theorem usage_gate_rejects_iff_no_credits (s : DB) (hdr uid : String)
    (hbearer : startsWithBearer hdr = true) :
    ((getCreditsBalance uid s).1.credits_balance ≤ 0 →
      checkCredits true (some hdr) (.ok uid) s
        = (.reject 403
            { error := "Insufficient credits",
              message := insufficientMessage (getCreditsBalance uid s).1.plan,
              credits_balance := (getCreditsBalance uid s).1.credits_balance,
              plan := (getCreditsBalance uid s).1.plan },
           (getCreditsBalance uid s).2) ∧
      generatePlanGate true uid s
        = (.reject 403
            { error := "Insufficient credits",
              message := insufficientMessage (getCreditsBalance uid s).1.plan,
              credits_balance := (getCreditsBalance uid s).1.credits_balance,
              plan := (getCreditsBalance uid s).1.plan },
           (getCreditsBalance uid s).2)) ∧
    (0 < (getCreditsBalance uid s).1.credits_balance →
      checkCredits true (some hdr) (.ok uid) s
          = (.proceed, (getCreditsBalance uid s).2) ∧
      generatePlanGate true uid s = (.proceed, (getCreditsBalance uid s).2)) := by
  constructor
  · intro hle
    constructor
    · simp [checkCredits, hbearer, hle]
    · simp [generatePlanGate, hle]
  · intro hpos
    have hgt : ¬ (getCreditsBalance uid s).1.credits_balance ≤ 0 := by omega
    constructor
    · simp [checkCredits, hbearer, hgt]
    · simp [generatePlanGate, hgt]

/-- An account that has used up every credit. -/
def zeroBalanceAccount : Account :=
  { plan := "free", credits_balance := 0, paypalSubscriptionId := none,
    manualProCreditsGranted := false }

/-- State with user u0 out of credits. -/
def emptyCreditsState : DB :=
  { users := [("u0", zeroBalanceAccount)], ledger := [],
    processedWebhooks := [] }

/-- Witness for C8: a Bearer header and an account with balance 0 is
rejected with a payload carrying plan free and balance 0. -/
theorem usage_gate_rejects_iff_no_credits_witness :
    startsWithBearer "Bearer tok1" = true ∧
    (getCreditsBalance "u0" emptyCreditsState).1.credits_balance ≤ 0 ∧
    checkCredits true (some "Bearer tok1") (.ok "u0") emptyCreditsState
      = (.reject 403
          { error := "Insufficient credits",
            message := insufficientMessage
              (getCreditsBalance "u0" emptyCreditsState).1.plan,
            credits_balance :=
              (getCreditsBalance "u0" emptyCreditsState).1.credits_balance,
            plan := (getCreditsBalance "u0" emptyCreditsState).1.plan },
         (getCreditsBalance "u0" emptyCreditsState).2) :=
  ⟨by decide, by decide,
    ((usage_gate_rejects_iff_no_credits emptyCreditsState "Bearer tok1" "u0"
      (by decide)).1 (by decide)).1⟩

/-- Claim C10: the usage gate fails open. With a null db handle, a missing
or non-Bearer authorization header, or a token verification that throws,
checkCredits calls next() with the state untouched: no balance check and no
rejection; the inline generate-plan pre-check is likewise skipped entirely
when db is null. -/
theorem usage_gate_fails_open (s : DB) (h uid : String) (v : TokenVerify)
    (hnb : startsWithBearer h = false) :
    (∀ hdr : Option String, checkCredits false hdr v s = (.proceed, s)) ∧
    checkCredits true none v s = (.proceed, s) ∧
    checkCredits true (some h) v s = (.proceed, s) ∧
    (∀ hdr : String, checkCredits true (some hdr) .fail s = (.proceed, s)) ∧
    generatePlanGate false uid s = (.proceed, s) := by
  refine ⟨?_, rfl, ?_, ?_, rfl⟩
  · intro hdr
    cases hdr with
    | none => rfl
    | some hh =>
        simp only [checkCredits, Bool.not_false, Bool.or_true, if_true]
  · simp [checkCredits, hnb]
  · intro hdr
    by_cases hb : startsWithBearer hdr = true
    · simp [checkCredits, hb]
    · simp only [Bool.not_eq_true] at hb
      simp [checkCredits, hb]

/-- Witness for C10: a non-Bearer header is waved through with the state
untouched. -/
theorem usage_gate_fails_open_witness :
    startsWithBearer "Basic abc" = false ∧
    checkCredits true (some "Basic abc") (.ok "u0") emptyCreditsState
      = (.proceed, emptyCreditsState) :=
  ⟨by decide,
    (usage_gate_fails_open emptyCreditsState "Basic abc" "u0" (.ok "u0")
      (by decide)).2.2.1⟩

theorem addCredits_processedWebhooks (s : DB) (u t d k : String) (a : Int)
    (e? : Option String) (f : Bool) :
    ((addCredits u a t d k e? f s).2).processedWebhooks
      = s.processedWebhooks := by
  unfold addCredits
  split
  · rfl
  · split
    · rfl
    · rfl

theorem addCredits_txFails_state (s : DB) (u t d k : String) (a : Int)
    (e? : Option String) :
    (addCredits u a t d k e? true s).2 = s := by
  unfold addCredits
  split
  · rfl
  · simp

theorem applyWebhookEvent_processedWebhooks (ev : WebhookEvent) (g f : Bool)
    (s : DB) :
    ((applyWebhookEvent ev g f s).2).processedWebhooks
      = s.processedWebhooks := by
  unfold applyWebhookEvent
  repeat' split
  all_goals try rfl
  all_goals try (simp [addCredits_processedWebhooks])
  all_goals repeat' split
  all_goals try rfl
  all_goals simp [addCredits_processedWebhooks]

theorem isWebhookProcessed_mark (s : DB) (i t : String) :
    isWebhookProcessed (markWebhookProcessed s i t) i = true := by
  simp [isWebhookProcessed, markWebhookProcessed]

/-- How many ledger rows reference processor event id i. -/
def countByEvent (l : List LedgerEntry) (i : String) : Nat :=
  (l.filter (fun e => e.paypalEventId == some i)).length

/-- How many ProcessedWebhookRecords exist for event id i. -/
def countProcessed (s : DB) (i : String) : Nat :=
  (s.processedWebhooks.filter (fun p => p.1 == i)).length

theorem countProcessed_mark (s : DB) (i t : String) :
    countProcessed (markWebhookProcessed s i t) i = 1 := by
  unfold countProcessed markWebhookProcessed
  simp only [List.filter_cons]
  have : (fun p : String × String => p.1 == i) = fun p => p.1 == i := rfl
  simp [List.filter_filter]

/-- The exact post-state of a fresh-key successful addCredits, existentially
over the written account. -/
theorem addCredits_fresh_state (s : DB) (u t d k : String) (a : Int)
    (e? : Option String) (hfresh : keyExists s.ledger k = false) :
    ∃ acct', (addCredits u a t d k e? false s).2
      = { users := setUser s.users u acct',
          ledger := s.ledger ++
            [{ userId := u, amount := a, type := t, description := d,
               idempotencyKey := some k, paypalEventId := e?,
               balanceAfter := some acct'.credits_balance }],
          processedWebhooks := s.processedWebhooks } := by
  cases hl : lookupUser s u with
  | some acct =>
      refine ⟨{ acct with
        credits_balance := max 0 (acct.credits_balance + a),
        plan := if t == "purchase" then "pro" else acct.plan }, ?_⟩
      simp [addCredits, hfresh, hl]
  | none =>
      refine ⟨{ plan := if t == "purchase" then "pro" else "free",
                credits_balance := max 0 (0 + a),
                paypalSubscriptionId := none,
                manualProCreditsGranted := false }, ?_⟩
      simp [addCredits, hfresh, hl]

/-- A subscription-activated event naming user u2 directly via custom_id. -/
def activatedEvent : WebhookEvent :=
  { id := "evt1", event_type := "BILLING.SUBSCRIPTION.ACTIVATED",
    resourceId := some "sub1", customId := some "u2" }

/-- Claim C3 counterexample: with the grant transaction failing (addCredits
returns success false, state untouched), the webhook handler still writes
the ProcessedWebhookRecord for evt1 while no ledger row was appended, so a
record can exist although the side effects of the event were never applied. -/
theorem webhook_record_written_despite_failed_grant :
    (addCredits "u2" PLAN_CREDITS.pro "purchase"
        "Pro subscription payment (BILLING.SUBSCRIPTION.ACTIVATED)"
        "paypal_evt1" (some "evt1") true freshU2State).1
      = .err "Store unavailable" ∧
    isWebhookProcessed
        (processPaypalWebhook activatedEvent true true false freshU2State).2
        "evt1" = true ∧
    (processPaypalWebhook activatedEvent true true false
        freshU2State).2.ledger = [] := by
  refine ⟨by decide, by decide, by decide⟩

/-- Claim C3 (amended): the ProcessedWebhookRecord is a marker that the
dispatch ran to completion without an escaping exception, not that the
Balance Manager call succeeded. When an exception escapes the dispatch
(first conjunct) no record is left behind and the event will be retried;
but when the grant transaction fails inside addCredits, that failure is
returned as success false, the handler ignores it, and the record is still
written even though no ledger row was appended (second conjunct), so record
existence does not imply the side effects were applied. -/
theorem webhook_record_after_dispatch_not_success :
    (∀ (ev : WebhookEvent) (g f : Bool) (s : DB),
      isWebhookProcessed s ev.id = false →
      (applyWebhookEvent ev g f s).1 = true →
      isWebhookProcessed (processPaypalWebhook ev true g f s).2 ev.id
        = false) ∧
    (∀ (ev : WebhookEvent) (s : DB) (subId u : String) (acct : Account),
      ev.event_type = "BILLING.SUBSCRIPTION.ACTIVATED" →
      ev.resourceId = some subId →
      ev.customId = some u →
      lookupUser s u = some acct →
      isWebhookProcessed s ev.id = false →
      isWebhookProcessed (processPaypalWebhook ev true true false s).2 ev.id
          = true ∧
      (processPaypalWebhook ev true true false s).2.ledger = s.ledger) := by
  constructor
  · intro ev g f s hnp hthrew
    unfold processPaypalWebhook
    simp only [Bool.not_true, hnp, hthrew, Bool.false_eq_true, if_false,
      if_true]
    unfold isWebhookProcessed
    rw [applyWebhookEvent_processedWebhooks]
    exact hnp
  · intro ev s subId u acct hty hres hcust hacct hnp
    unfold processPaypalWebhook
    simp only [Bool.not_true, hnp, Bool.false_eq_true, if_false]
    unfold applyWebhookEvent
    simp only [hty, hres, hcust, beq_self_eq_true, Bool.true_or, if_true,
      addCredits_txFails_state, hacct]
    constructor
    · exact isWebhookProcessed_mark _ _ _
    · rfl

/-- Witness for C3 (amended): the concrete failed-grant run writes the
record for evt1 and leaves the ledger of the pre-state unchanged. -/
theorem webhook_record_after_dispatch_not_success_witness :
    isWebhookProcessed freshU2State "evt1" = false ∧
    isWebhookProcessed
        (processPaypalWebhook activatedEvent true true false freshU2State).2
        "evt1" = true :=
  ⟨by decide,
    ((webhook_record_after_dispatch_not_success).2 activatedEvent
      freshU2State "sub1" "u2" freshFreeAccount rfl rfl rfl (by decide)
      (by decide)).1⟩

/-- The account-field update the webhook performs after a successful
activation grant: store the subscription id and set plan pro. -/
def withSub (a : Account) (subId : String) : Account :=
  { a with paypalSubscriptionId := some subId, plan := "pro" }

/-- The ledger row an activation/payment event appends via addCredits. -/
def proPurchaseEntry (u : String) (ev : WebhookEvent) (bal : Int) :
    LedgerEntry :=
  { userId := u, amount := PLAN_CREDITS.pro, type := "purchase",
    description := "Pro subscription payment (" ++ ev.event_type ++ ")",
    idempotencyKey := some ("paypal_" ++ ev.id),
    paypalEventId := some ev.id, balanceAfter := some bal }

/-- The state after one complete processing of a fresh activation event. -/
def activatedRun1State (s : DB) (u subId : String) (acct' : Account)
    (ev : WebhookEvent) : DB :=
  markWebhookProcessed
    { users := setUser (setUser s.users u acct') u (withSub acct' subId),
      ledger := s.ledger ++ [proPurchaseEntry u ev acct'.credits_balance],
      processedWebhooks := s.processedWebhooks }
    ev.id ev.event_type

/-- Claim C7: an already-processed event id short-circuits the whole handler
(no Balance Manager call, no write, same state returned), and a fresh
activation event processed twice yields exactly one ledger row and one
ProcessedWebhookRecord for that event id. -/
theorem webhook_replay_idempotent :
    (∀ (ev : WebhookEvent) (g f : Bool) (s : DB),
      isWebhookProcessed s ev.id = true →
      processPaypalWebhook ev true g f s = (200, s)) ∧
    (∀ (ev : WebhookEvent) (s : DB) (subId u : String),
      ev.event_type = "BILLING.SUBSCRIPTION.ACTIVATED" →
      ev.resourceId = some subId →
      ev.customId = some u →
      isWebhookProcessed s ev.id = false →
      keyExists s.ledger ("paypal_" ++ ev.id) = false →
      countByEvent s.ledger ev.id = 0 →
      processPaypalWebhook ev true false false
          (processPaypalWebhook ev true false false s).2
        = (200, (processPaypalWebhook ev true false false s).2) ∧
      countByEvent (processPaypalWebhook ev true false false s).2.ledger
          ev.id = 1 ∧
      countProcessed (processPaypalWebhook ev true false false s).2 ev.id
          = 1) := by
  have hreplay : ∀ (ev : WebhookEvent) (g f : Bool) (s : DB),
      isWebhookProcessed s ev.id = true →
      processPaypalWebhook ev true g f s = (200, s) := by
    intro ev g f s hp
    simp [processPaypalWebhook, hp]
  refine ⟨hreplay, ?_⟩
  intro ev s subId u hty hres hcust hnp hkey hcnt
  obtain ⟨acct', hshape⟩ := addCredits_fresh_state s u "purchase"
    ("Pro subscription payment (" ++ ev.event_type ++ ")")
    ("paypal_" ++ ev.id) PLAN_CREDITS.pro (some ev.id) hkey
  have hrun1 : processPaypalWebhook ev true false false s
      = (200, activatedRun1State s u subId acct' ev) := by
    unfold processPaypalWebhook
    simp only [Bool.not_true, hnp, Bool.false_eq_true, if_false]
    have hcond : (ev.event_type == "BILLING.SUBSCRIPTION.ACTIVATED"
        || ev.event_type == "PAYMENT.SALE.COMPLETED") = true := by
      rw [hty]
      rfl
    unfold applyWebhookEvent
    simp only [hcond, hres, hcust, if_true]
    rw [hshape]
    simp only [lookupUser_mk, lookupA_set, if_pos rfl]
    rfl
  refine ⟨?_, ?_, ?_⟩
  · apply hreplay
    rw [hrun1]
    exact isWebhookProcessed_mark _ _ _
  · rw [hrun1]
    show countByEvent (s.ledger ++ [proPurchaseEntry u ev
      acct'.credits_balance]) ev.id = 1
    unfold countByEvent at hcnt ⊢
    rw [List.filter_append, List.length_append]
    rw [hcnt]
    simp [proPurchaseEntry]
  · rw [hrun1]
    exact countProcessed_mark _ _ _

/-- Witness for C7: the concrete activation event against the fresh store,
run once then replayed. -/
theorem webhook_replay_idempotent_witness :
    isWebhookProcessed freshU2State "evt1" = false ∧
    countByEvent
        (processPaypalWebhook activatedEvent true false false
          freshU2State).2.ledger "evt1" = 1 ∧
    countProcessed
        (processPaypalWebhook activatedEvent true false false
          freshU2State).2 "evt1" = 1 :=
  ⟨by decide,
    ((webhook_replay_idempotent).2 activatedEvent freshU2State "sub1" "u2"
      rfl rfl rfl (by decide) (by decide) (by decide)).2.1,
    ((webhook_replay_idempotent).2 activatedEvent freshU2State "sub1" "u2"
      rfl rfl rfl (by decide) (by decide) (by decide)).2.2⟩

end GoStudy
